import Mathlib

/-!
Verification of the k2sobot interactive command-construction state machine
(`handlers.py`, `main.py`, `shared_state.py`), the joke/time tool servers
(`joke_mcp_server.py`, `time_mcp_server.py`) and the assistant tool-call
negotiator (`gemini_integration.py`, `tool_instructions.py`).

The Python code is shallowly embedded: dictionaries become association
lists, the global `selected_actions` dict becomes an explicit store value
threaded through the handlers, JSON values parsed by `json.loads` become an
explicit `Json` inductive, external collaborators (Slack, kubectl, the
Gemini model, the MCP transport, the `json` library inside the negotiator)
become oracle parameters, and Python exceptions become `Except` errors.
-/

namespace K2sobot

/-! ## Python-style helpers -/

/-- Formatting of an `Optional[str]` inside a Python f-string:
`None` renders as the literal string `"None"`. -/
def pyStr : Option String → String
  | none => "None"
  | some s => s

/-- Occurrence test for a character-list pattern inside a character list
(structural recursion so that concrete instances compute). -/
def listContainsSub (l sub : List Char) : Bool :=
  match l with
  | [] => sub.isEmpty
  | _ :: rest => List.isPrefixOf sub l || listContainsSub rest sub

/-- Python's substring test `pat in s`; the empty pattern is contained in
every string. -/
def strContains (s pat : String) : Bool :=
  listContainsSub s.toList pat.toList

/-- Python's whitespace test for `str.strip()` (the ASCII whitespace
characters Python strips; the embedded strings contain no exotic
whitespace). -/
def isPySpace (c : Char) : Bool :=
  c = ' ' || c = '\t' || c = '\n' || c = '\r' || c = '\x0b' || c = '\x0c'

/-- Python `s.strip()`. -/
def pyStrip (s : String) : String :=
  String.mk (((s.toList.dropWhile isPySpace).reverse.dropWhile isPySpace).reverse)

/-- Python `s.lower()` (ASCII case mapping suffices for the embedded
keyword tests). -/
def pyLower (s : String) : String :=
  String.mk (s.toList.map Char.toLower)

/-- Fuelled splitter behind `pySplit`: emits the accumulated segment each
time the separator is a prefix of the remaining input and skips it.  The
fuel (instantiated with the input length) makes the recursion structural;
it never runs out because every step consumes at least one character. -/
def splitOnCharsFuel (sep : List Char) : Nat → List Char → List Char → List (List Char)
  | _, [], acc => [acc.reverse]
  | 0, l, acc => [acc.reverse ++ l]
  | fuel + 1, c :: rest, acc =>
      if List.isPrefixOf sep (c :: rest) then
        acc.reverse :: splitOnCharsFuel sep fuel (List.drop sep.length (c :: rest)) []
      else
        splitOnCharsFuel sep fuel rest (c :: acc)

/-- Python `s.split(sep)` for a non-empty separator (the only way the
embedded code calls it). -/
def pySplit (s sep : String) : List String :=
  if sep = "" then [s]
  else (splitOnCharsFuel sep.toList s.toList.length s.toList []).map String.mk

/-! ## Selection store (`shared_state.selected_actions` and the handler
functions of `handlers.py`; `main.py` lines 146-206 duplicate the same
handler bodies verbatim, so one embedding covers both cited sources) -/

/-- One conversation's in-flight selection: the Python dict stored at
`selected_actions[channel_id]`.  A `none` field models an absent dict key
(`nspace` embeds the Python key `"namespace"`, a Lean keyword). -/
structure Selection where
  command : Option String := none
  sub_command : Option String := none
  nspace : Option String := none
  deriving DecidableEq, Repr

/-- The global `selected_actions` dict: conversation id → selection,
in insertion order. -/
abbrev Store := List (String × Selection)

/-- Python dict read `selected_actions.get(ch)` / `selected_actions[ch]`. -/
def storeGet : Store → String → Option Selection
  | [], _ => none
  | (k, v) :: rest, ch => if k = ch then some v else storeGet rest ch

/-- Python dict write `selected_actions[ch] = sel`: replaces the value of
an existing key in place, otherwise appends a new entry. -/
def storeSet : Store → String → Selection → Store
  | [], ch, sel => [(ch, sel)]
  | (k, v) :: rest, ch, sel =>
      if k = ch then (ch, sel) :: rest else (k, v) :: storeSet rest ch sel

/-- The interactive menus a handler can post (`slack_blocks.build_*`
payload construction is out-of-scope glue; a menu is identified by its kind
and the data it is built from). -/
inductive Menu where
  | subCommandMenu (command : String)
  | namespaceMenu
  | podMenu (nspace : String)
  | deploymentMenu (nspace : String)
  deriving DecidableEq, Repr

/-- The observable side effect of one handler run: posting a menu,
executing a kubectl command via `k8s.run_kubectl_command`, or posting a
plain text message. -/
inductive Effect where
  | postBlocks (menu : Menu)
  | runKubectl (channel command : String)
  | postText (channel text : String)
  deriving DecidableEq, Repr

/-- Embeds `handlers.handle_kubectl_command_select` (lines 14-18): stores a fresh
`{"command": v}` dict under the conversation id — a full replacement — and
posts the sub-command menu. -/
def handle_kubectl_command_select (st : Store) (channel_id v : String) :
    Store × Effect :=
  (storeSet st channel_id { command := some v },
   .postBlocks (.subCommandMenu v))

/-- Embeds `handlers.handle_kubectl_sub_command_select` (lines 21-27): writes the
sub-command only when the conversation already has an entry
(`if channel_id in selected_actions`), then posts the namespace menu. -/
def handle_kubectl_sub_command_select (st : Store) (channel_id v : String) :
    Store × Effect :=
  let st' := match storeGet st channel_id with
    | some sel => storeSet st channel_id { sel with sub_command := some v }
    | none => st
  (st', .postBlocks .namespaceMenu)

/-- Embeds `handlers.handle_kubectl_namespace_select` (lines 30-48): stores the
namespace (only when an entry exists), then branches on the stored
command/sub-command pair: pod menu for describe/logs on pods, deployment
menu for rollout restart on deployments, otherwise builds and runs the
kubectl command immediately (an unset field renders as `None` inside the
f-string). -/
def handle_kubectl_namespace_select (st : Store) (channel_id v : String) :
    Store × Effect :=
  let st' := match storeGet st channel_id with
    | some sel => storeSet st channel_id { sel with nspace := some v }
    | none => st
  let selected_command := (storeGet st' channel_id).bind Selection.command
  let selected_sub_command := (storeGet st' channel_id).bind Selection.sub_command
  if (selected_command = some "describe" ∨ selected_command = some "logs") ∧
      selected_sub_command = some "pods" then
    (st', .postBlocks (.podMenu v))
  else if selected_command = some "rollout restart" ∧
      selected_sub_command = some "deployments" then
    (st', .postBlocks (.deploymentMenu v))
  else
    (st', .runKubectl channel_id
      ("kubectl " ++ pyStr selected_command ++ " " ++
        pyStr selected_sub_command ++ " -n " ++ v))

/-- Embeds `handlers.handle_kubectl_pod_select` (lines 51-63): reads the stored
namespace with default `""`; when it is non-empty (Python truthiness)
builds `kubectl logs <pod> -n <ns>` for the logs command and
`kubectl <cmd> pod <pod> -n <ns>` otherwise, and runs it; when empty,
posts the start-over message. -/
def handle_kubectl_pod_select (st : Store) (channel_id pod : String) :
    Store × Effect :=
  let selected_namespace := ((storeGet st channel_id).bind Selection.nspace).getD ""
  let selected_command := (storeGet st channel_id).bind Selection.command
  if selected_namespace ≠ "" then
    if selected_command = some "logs" then
      (st, .runKubectl channel_id
        ("kubectl " ++ pyStr selected_command ++ " " ++ pod ++ " -n " ++
          selected_namespace))
    else
      (st, .runKubectl channel_id
        ("kubectl " ++ pyStr selected_command ++ " pod " ++ pod ++ " -n " ++
          selected_namespace))
  else
    (st, .postText channel_id "Namespace not selected. Please start over.")

/-- Embeds `handlers.handle_kubectl_deployment_select` (lines 65-74): like pod
selection but always inserts the literal `deployment` token. -/
def handle_kubectl_deployment_select (st : Store) (channel_id dep : String) :
    Store × Effect :=
  let selected_namespace := ((storeGet st channel_id).bind Selection.nspace).getD ""
  let selected_command := (storeGet st channel_id).bind Selection.command
  if selected_namespace ≠ "" then
    (st, .runKubectl channel_id
      ("kubectl " ++ pyStr selected_command ++ " deployment " ++ dep ++
        " -n " ++ selected_namespace))
  else
    (st, .postText channel_id "Namespace not selected. Please start over.")

/-! ## JSON values and Python dict/str primitives for the tool servers
(`joke_mcp_server.py`, `time_mcp_server.py`) -/

/-- A JSON value as produced by Python's `json.loads`.  Numbers are
modelled as integers (JSON float literals are outside the model; every
claim quantifies over integer payloads).  Python dicts keep insertion
order, hence an association list. -/
inductive Json where
  | null
  | bool (b : Bool)
  | num (n : Int)
  | str (s : String)
  | arr (items : List Json)
  | obj (fields : List (String × Json))
  deriving Repr

/-- Python `x.get(key)` on a `json.loads` result: returns the value or
`None` when the key is absent; raises `AttributeError` when `x` is not a
dict. -/
def pyGet (j : Json) (key : String) : Except String Json :=
  match j with
  | .obj fields => .ok ((fields.lookup key).getD .null)
  | _ => .error ("AttributeError: no attribute get for key " ++ key)

/-- Python `x.get(key, dflt)` on a `json.loads` result. -/
def pyGetD (j : Json) (key : String) (dflt : Json) : Except String Json :=
  match j with
  | .obj fields => .ok ((fields.lookup key).getD dflt)
  | _ => .error ("AttributeError: no attribute get for key " ++ key)

/-- Evaluation of a `json.loads` value in Python integer context, as in
`0 <= index < len(JOKES)` followed by `JOKES[index]`: ints are themselves,
bools are 0/1 (Python `bool` is an `int` subclass), anything else raises
`TypeError`. -/
def pyToInt : Json → Except String Int
  | .num n => .ok n
  | .bool b => .ok (if b then 1 else 0)
  | _ => .error "TypeError: comparison/index not supported"

mutual

/-- Python `repr()` of a `json.loads`-produced value; string quoting is
simplified to bare single quotes (faithful for strings without quote or
escape characters, the only ones the embedded code produces). -/
def pyRepr : Json → String
  | .null => "None"
  | .bool true => "True"
  | .bool false => "False"
  | .num n => toString n
  | .str s => "\x27" ++ s ++ "\x27"
  | .arr items => "[" ++ pyReprList items ++ "]"
  | .obj fields => "\x7b" ++ pyReprFields fields ++ "\x7d"

/-- Comma-separated `repr` of list elements. -/
def pyReprList : List Json → String
  | [] => ""
  | [j] => pyRepr j
  | j :: rest => pyRepr j ++ ", " ++ pyReprList rest

/-- Comma-separated `repr` of dict items. -/
def pyReprFields : List (String × Json) → String
  | [] => ""
  | [(k, v)] => "\x27" ++ k ++ "\x27: " ++ pyRepr v
  | (k, v) :: rest => "\x27" ++ k ++ "\x27: " ++ pyRepr v ++ ", " ++ pyReprFields rest

end

/-- Python `str()` of a `json.loads`-produced value, as interpolated by an
f-string: a string renders bare, containers render via `repr`. -/
def pyFStr : Json → String
  | .str s => s
  | j => pyRepr j

/-- Escaping of one character inside a JSON string literal (Python
`json.dumps` default): only backslash and double quote occur in the
embedded data. -/
def escapeChar (c : Char) : String :=
  if c = '\\' then "\\\\"
  else if c = '"' then "\\\""
  else String.singleton c

/-- Escaping of a whole string for `json.dumps`. -/
def escapeString (s : String) : String :=
  String.join (s.toList.map escapeChar)

mutual

/-- Python `json.dumps` with its default separators `", "` and `": "`. -/
def dumps : Json → String
  | .null => "null"
  | .bool true => "true"
  | .bool false => "false"
  | .num n => toString n
  | .str s => "\"" ++ escapeString s ++ "\""
  | .arr items => "[" ++ dumpsList items ++ "]"
  | .obj fields => "\x7b" ++ dumpsFields fields ++ "\x7d"

/-- Comma-separated `dumps` of list elements. -/
def dumpsList : List Json → String
  | [] => ""
  | [j] => dumps j
  | j :: rest => dumps j ++ ", " ++ dumpsList rest

/-- Comma-separated `dumps` of dict items. -/
def dumpsFields : List (String × Json) → String
  | [] => ""
  | [(k, v)] => "\"" ++ escapeString k ++ "\": " ++ dumps v
  | (k, v) :: rest =>
      "\"" ++ escapeString k ++ "\": " ++ dumps v ++ ", " ++ dumpsFields rest

end

/-- A JSON-RPC error response object. -/
def rpcError (request_id : Json) (code : Int) (message : String) : Json :=
  .obj [("jsonrpc", .str "2.0"), ("id", request_id),
        ("error", .obj [("code", .num code), ("message", .str message)])]

/-- A JSON-RPC result response carrying one text content item (the shape
both tool servers produce for `tools/call`). -/
def rpcResultText (request_id : Json) (text : String) : Json :=
  .obj [("jsonrpc", .str "2.0"), ("id", request_id),
        ("result", .obj [("content",
          .arr [.obj [("type", .str "text"), ("text", .str text)]])])]

/-- The `JOKES` list of `joke_mcp_server.py` (setup, punchline). -/
def JOKES : List (String × String) := [
  ("Why do programmers prefer dark mode?",
   "Because light attracts bugs!"),
  ("Why did the developer go broke?",
   "Because he used up all his cache!"),
  ("How many programmers does it take to change a light bulb?",
   "None. It\x27s a hardware problem!"),
  ("Why do Java developers wear glasses?",
   "Because they don\x27t C#!"),
  ("What\x27s a programmer\x27s favorite hangout place?",
   "Foo Bar!"),
  ("Why did the Kubernetes pod go to therapy?",
   "It had too many container issues!"),
  ("What do you call a developer who doesn\x27t comment their code?",
   "A job security expert!"),
  ("Why was the JavaScript developer sad?",
   "Because he didn\x27t Node how to Express himself!")]

/-- The `result` object of the joke server's `tools/list` response
(`joke_mcp_server.py` lines 50-89), including the advertised input schema
of `get_joke_by_index` with its `required: ["index"]` constraint. -/
def joke_tools_list_result : Json :=
  .obj [("tools", .arr [
    .obj [("name", .str "get_random_joke"),
          ("description", .str "Get a random programming joke"),
          ("inputSchema", .obj [("type", .str "object"),
            ("properties", .obj [])])],
    .obj [("name", .str "get_joke_by_index"),
          ("description", .str "Get a specific joke by index (0-7)"),
          ("inputSchema", .obj [("type", .str "object"),
            ("properties", .obj [("index", .obj [("type", .str "integer"),
              ("minimum", .num 0), ("maximum", .num 7)])]),
            ("required", .arr [.str "index"])])],
    .obj [("name", .str "count_jokes"),
          ("description", .str "Get the total number of jokes"),
          ("inputSchema", .obj [("type", .str "object"),
            ("properties", .obj [])])]])]

/-- Embeds the `get_joke_by_index` branch of `joke_mcp_server.handle_request`
(lines 111-134) after the integer value of `index` is known: in-range
indices return the joke payload, out-of-range indices return error -32602
with `f"Index must be 0-{len(JOKES)-1}"`. -/
def get_joke_by_index_response (request_id : Json) (index : Int) : Json :=
  if 0 ≤ index ∧ index < (JOKES.length : Int) then
    let joke := JOKES.getD index.toNat ("", "")
    rpcResultText request_id (dumps (.obj [("setup", .str joke.1),
      ("punchline", .str joke.2), ("index", .num index)]))
  else
    rpcError request_id (-32602)
      ("Index must be 0-" ++ toString (JOKES.length - 1))

/-- Embeds `joke_mcp_server.handle_request`.  `randPick` models the draw
`random.choice(JOKES)` makes for `get_random_joke` (reduced mod the list
length).  A raised Python exception (attribute access on a non-dict,
integer context on a non-number) is an `Except.error`. -/
def joke_handle_request (randPick : Nat) (request : Json) :
    Except String Json := do
  let method ← pyGet request "method"
  let params ← pyGetD request "params" (.obj [])
  let request_id ← pyGetD request "id" (.num 1)
  match method with
  | .str "tools/list" =>
      pure (.obj [("jsonrpc", .str "2.0"), ("id", request_id),
        ("result", joke_tools_list_result)])
  | .str "tools/call" => do
      let tool_name ← pyGet params "name"
      let arguments ← pyGetD params "arguments" (.obj [])
      match tool_name with
      | .str "get_random_joke" =>
          let joke := JOKES.getD (randPick % JOKES.length) ("", "")
          pure (rpcResultText request_id (dumps (.obj [
            ("setup", .str joke.1), ("punchline", .str joke.2)])))
      | .str "get_joke_by_index" => do
          let index ← pyGetD arguments "index" (.num 0)
          let n ← pyToInt index
          pure (get_joke_by_index_response request_id n)
      | .str "count_jokes" =>
          pure (rpcResultText request_id (dumps (.obj [
            ("total_jokes", .num (JOKES.length : Int))])))
      | _ =>
          pure (rpcError request_id (-32601)
            ("Unknown tool: " ++ pyFStr tool_name))
  | _ =>
      pure (rpcError request_id (-32601)
        ("Unknown method: " ++ pyFStr method))

/-- The strings `datetime.now()` is formatted into by
`time_mcp_server.py` (strftime is an external library call; its outputs
are inputs to the embedding). -/
structure TimeNow where
  iso_format : String
  human_readable : String
  time_only : String
  date_only : String
  day_of_week : String
  unix_timestamp : Int
  deriving Repr

/-- The `result` object of the time server's `tools/list` response
(`time_mcp_server.py` lines 15-39). -/
def time_tools_list_result : Json :=
  .obj [("tools", .arr [
    .obj [("name", .str "get_current_time"),
          ("description", .str "Get the current date and time"),
          ("inputSchema", .obj [("type", .str "object"),
            ("properties", .obj [])])],
    .obj [("name", .str "get_timestamp"),
          ("description", .str "Get the current Unix timestamp"),
          ("inputSchema", .obj [("type", .str "object"),
            ("properties", .obj [])])]])]

/-- Embeds `time_mcp_server.handle_request`, with the ambient clock value
passed explicitly. -/
def time_handle_request (now : TimeNow) (request : Json) :
    Except String Json := do
  let method ← pyGet request "method"
  let params ← pyGetD request "params" (.obj [])
  let request_id ← pyGetD request "id" (.num 1)
  match method with
  | .str "tools/list" =>
      pure (.obj [("jsonrpc", .str "2.0"), ("id", request_id),
        ("result", time_tools_list_result)])
  | .str "tools/call" => do
      let tool_name ← pyGet params "name"
      let _arguments ← pyGetD params "arguments" (.obj [])
      match tool_name with
      | .str "get_current_time" =>
          pure (rpcResultText request_id (dumps (.obj [
            ("iso_format", .str now.iso_format),
            ("human_readable", .str now.human_readable),
            ("time_only", .str now.time_only),
            ("date_only", .str now.date_only),
            ("day_of_week", .str now.day_of_week)])))
      | .str "get_timestamp" =>
          pure (rpcResultText request_id (dumps (.obj [
            ("unix_timestamp", .num now.unix_timestamp),
            ("description",
             .str "Seconds since January 1, 1970 00:00:00 UTC")])))
      | _ =>
          pure (rpcError request_id (-32601)
            ("Unknown tool: " ++ pyFStr tool_name))
  | _ =>
      pure (rpcError request_id (-32601)
        ("Unknown method: " ++ pyFStr method))

/-- The error line both server `main` loops print when the `try` body
raises: id 0, code -32603, `str(e)` as message. -/
def malformedLineResponse (e : String) : Json :=
  .obj [("jsonrpc", .str "2.0"), ("id", .num 0),
        ("error", .obj [("code", .num (-32603)), ("message", .str e)])]

/-- One iteration of a server `main` loop: the input is the outcome of
`json.loads(line.strip())` (the parse is the external `json` library, its
outcome is the input to the embedding); a parse failure or an exception
inside `handle_request` produces the id-0 -32603 error line, otherwise the
handler response is printed. -/
def processLine (handle : Json → Except String Json)
    (line : Except String Json) : Json :=
  match line.bind handle with
  | .ok response => response
  | .error e => malformedLineResponse e

/-- Embeds `joke_mcp_server.main` (lines 162-177): every stdin line is
processed independently; each line carries the random draw its handling
consumes. -/
def joke_server_main (inputs : List (Nat × Except String Json)) :
    List Json :=
  inputs.map fun p => processLine (joke_handle_request p.1) p.2

/-- Embeds `time_mcp_server.main` (lines 92-107). -/
def time_server_main (now : TimeNow)
    (inputs : List (Except String Json)) : List Json :=
  inputs.map (processLine (time_handle_request now))

/-- Reads, from a `tools/list` result object, the `required` list of the
input schema advertised for the named tool. -/
def advertisedRequired (toolsResult : Json) (tool : String) : Option Json :=
  match toolsResult with
  | .obj fields =>
      match fields.lookup "tools" with
      | some (.arr tools) =>
          match tools.filter (fun t =>
            match t with
            | .obj tf =>
                match tf.lookup "name" with
                | some (.str n) => n == tool
                | _ => false
            | _ => false) with
          | [.obj tf] =>
              match tf.lookup "inputSchema" with
              | some (.obj sf) => sf.lookup "required"
              | _ => none
          | _ => none
      | _ => none
  | _ => none

/-! ## Assistant tool-call negotiator (`gemini_integration.py`,
`tool_instructions.py`).  The Gemini model, the MCP client object and the
`json` library are external collaborators, passed as oracle values; the
control flow, prompts and string manipulation are embedded from the
source. -/

/-- Python `s.find(sub)` scanning helper over character lists: the first
index at which `sub` starts, if any. -/
def findSubAux (sub : List Char) : List Char → Nat → Option Nat
  | [], i => if sub.isEmpty then some i else none
  | c :: rest, i =>
      if List.isPrefixOf sub (c :: rest) then some i
      else findSubAux sub rest (i + 1)

/-- Python `s.find(sub)` (character index; `none` plays -1). -/
def strFindSub (s sub : String) : Option Nat :=
  findSubAux sub.toList s.toList 0

/-- Python `s.rfind(sub)` scanning helper: the last index at which `sub`
starts, if any. -/
def rfindSubAux (sub : List Char) : List Char → Nat → Option Nat → Option Nat
  | [], i, best => if sub.isEmpty then some i else best
  | c :: rest, i, best =>
      rfindSubAux sub rest (i + 1)
        (if List.isPrefixOf sub (c :: rest) then some i else best)

/-- Python `s.rfind(sub)` (character index; `none` plays -1). -/
def strRFindSub (s sub : String) : Option Nat :=
  rfindSubAux sub.toList s.toList 0 none

/-- Python slice `s[a:b]` for non-negative character bounds (`a > b`
yields the empty string, as in Python). -/
def pySlice (s : String) (a b : Nat) : String :=
  String.mk ((s.toList.drop a).take (b - a))

/-- Python `x.strip()` on a `json.loads` value: a string is trimmed,
anything else raises `AttributeError`. -/
def pyStrStrip : Json → Except String String
  | .str s => .ok (pyStrip s)
  | _ => .error "AttributeError: no attribute strip"

/-- A discovered tool as the negotiator reads it: the `tool["name"]` and
`tool["description"]` fields of one entry of `mcp.list_all_tools()`. -/
structure ToolInfo where
  name : String
  description : String
  deriving DecidableEq, Repr

/-- Oracle view of the MCP client object returned by `get_mcp_client()`
(an external collaborator; the registry is fixed during one negotiation,
so both `list_servers()` reads observe the same list).  `listAllTools`
and `callTool` may raise; `callTool` returns the textual result payload. -/
structure MCPClient where
  servers : List String
  listAllTools : Except String (List (String × List ToolInfo))
  callTool : String → String → Json → Except String String

/-- Oracle view of the Gemini model: `available` is
`is_gemini_available()`, and `generate p` is the `.text` of
`model.generate_content(p, ...)` or a raised exception.  The generation
config (token budget, temperature) only parameterises the external call;
the call sites are distinguished by their prompts. -/
structure GeminiEnv where
  available : Bool
  generate : String → Except String String

/-- The full environment of one `chat_with_mcp` run.  `loads` is the
external `json` library's `json.loads`; its failures are
`json.JSONDecodeError`s. -/
structure ChatEnv where
  gemini : GeminiEnv
  mcp : MCPClient
  loads : String → Except String Json

/-- Embeds the body of `gemini_integration.chat_with_gemini` (lines
32-49), everything inside the top-level `try`. -/
def chat_with_gemini_body (env : GeminiEnv) (user_message : String) :
    Except String String :=
  if !env.available then
    .ok "Gemini API key is not configured. Please set GEMINI_API_KEY environment variable."
  else
    match env.generate user_message with
    | .error e => .error e
    | .ok text =>
        if text ≠ "" then .ok text
        else .ok "Sorry, I couldn\x27t generate a response. Please try again."

/-- Embeds `gemini_integration.chat_with_gemini` (lines 30-53): the
catch-all turns a raised exception `e` into
`f"Sorry, I encountered an error: {str(e)}"`. -/
def chat_with_gemini (env : GeminiEnv) (user_message : String) : String :=
  match chat_with_gemini_body env user_message with
  | .ok r => r
  | .error e => "Sorry, I encountered an error: " ++ e

/-- Instruction text `TOOL_INSTRUCTIONS["joke"]["get_random_joke"]`. -/
def jokeRandomInstruction : String :=
  "\nWhen telling a joke:\n" ++
  "1. Build up anticipation with a friendly intro: \"Here\x27s a good one for you!\" or \"Oh, I\x27ve got a great one!\"\n" ++
  "2. Present the setup on its own line\n" ++
  "3. Add a brief pause (blank line)\n" ++
  "4. Deliver the punchline enthusiastically\n" ++
  "5. Add a happy emoji: 😄, 🤣, or 😂\n" ++
  "6. Engage the user: Ask if they want another joke or if that helped lighten the mood\n" ++
  "\nExample format:\n" ++
  "\"Here\x27s a good one! 😊\n" ++
  "\nWhy do programmers prefer dark mode?\n" ++
  "\nBecause light attracts bugs! 😄\n" ++
  "\nWant to hear another one?\"\n" ++
  "\nKeep it upbeat and fun!\n        "

/-- Instruction text `TOOL_INSTRUCTIONS["joke"]["get_joke_by_index"]`. -/
def jokeByIndexInstruction : String :=
  "\nWhen delivering a specific joke:\n" ++
  "1. Acknowledge their request: \"Here\x27s joke #X as requested!\"\n" ++
  "2. Present the setup\n" ++
  "3. Add spacing (blank line)\n" ++
  "4. Deliver the punchline\n" ++
  "5. Add emoji 😄\n" ++
  "6. Offer more: \"Want to try another number between 1-8?\"\n" ++
  "\nBe friendly and accommodating.\n        "

/-- Instruction text `TOOL_INSTRUCTIONS["joke"]["count_jokes"]`. -/
def countJokesInstruction : String :=
  "\nWhen telling the count:\n" ++
  "1. Make it conversational: \"I\x27ve got X programming jokes in my collection!\"\n" ++
  "2. Be enthusiastic: Use 🎭 or 😄 emoji\n" ++
  "3. Offer to share: \"Want to hear one? Just ask!\"\n" ++
  "4. Optional: Mention they can ask for a specific joke by number\n" ++
  "\nKeep it light and inviting.\n        "

/-- Instruction text `TOOL_INSTRUCTIONS["time"]["get_current_time"]`. -/
def currentTimeInstruction : String :=
  "\nWhen presenting time:\n" ++
  "1. Start clearly: \"The current time is...\"\n" ++
  "2. Format nicely: Include day of week if available, e.g., \"2:30 PM on Friday, January 17, 2025\"\n" ++
  "3. Add context based on time:\n" ++
  "   - Morning (6-11am): \"Good morning!\" or \"Early start!\"\n" ++
  "   - Afternoon (12-5pm): \"Afternoon!\" or \"Midday!\"\n" ++
  "   - Evening (6-9pm): \"Evening time!\" or \"Getting late!\"\n" ++
  "   - Night (10pm-5am): \"Burning the midnight oil!\" or \"Late night coding?\"\n" ++
  "4. Use appropriate emoji: 🕐, ⏰, 🌅, 🌆, 🌃\n" ++
  "5. Be conversational and friendly\n" ++
  "\nExample:\n" ++
  "\"The current time is 2:30 PM on Friday, January 17, 2025 🕐\n" ++
  "\nAlmost the weekend! 🎉\"\n        "

/-- Instruction text `TOOL_INSTRUCTIONS["time"]["get_timestamp"]`. -/
def timestampInstruction : String :=
  "\nWhen showing timestamp:\n" ++
  "1. Explain clearly: \"The current Unix timestamp is...\"\n" ++
  "2. Show the number prominently\n" ++
  "3. Add helpful context: \"This represents the number of seconds since January 1, 1970 (UTC)\"\n" ++
  "4. Use emoji: ⏱️ or 🕐\n" ++
  "5. Offer to show human-readable time if they need it\n" ++
  "\nExample:\n" ++
  "\"The current Unix timestamp is: 1705507845 ⏱️\n" ++
  "\nThat\x27s the number of seconds since January 1, 1970. Need this in a more readable format?\"\n        "

/-- Embeds `tool_instructions.TOOL_INSTRUCTIONS`: per-server, per-tool
formatting guidance. -/
def TOOL_INSTRUCTIONS : List (String × List (String × String)) := [
  ("joke", [
    ("get_random_joke", jokeRandomInstruction),
    ("get_joke_by_index", jokeByIndexInstruction),
    ("count_jokes", countJokesInstruction)]),
  ("time", [
    ("get_current_time", currentTimeInstruction),
    ("get_timestamp", timestampInstruction)])]

/-- Embeds `tool_instructions.get_tool_instruction`:
`TOOL_INSTRUCTIONS.get(server, {}).get(tool, "")`. -/
def get_tool_instruction (server tool : String) : String :=
  (((TOOL_INSTRUCTIONS.lookup server).getD []).lookup tool).getD ""

/-- Embeds the `tools_description` accumulation loop of `chat_with_mcp`
(lines 82-88): servers with an empty tool list are skipped, descriptions
are truncated to 150 characters. -/
def buildToolsDescription (all_tools : List (String × List ToolInfo)) :
    String :=
  all_tools.foldl (fun acc p =>
    if p.2.isEmpty then acc
    else (p.2.foldl
        (fun a t => a ++ "  - " ++ t.name ++ ": " ++
          t.description.take 150 ++ "...\n")
        (acc ++ "Server: " ++ p.1 ++ "\n")) ++ "\n")
    "Available tools:\n\n"

/-- Embeds the `system_prompt` f-string of `chat_with_mcp` (lines
91-111). -/
def chat_system_prompt (tools_description user_message : String) : String :=
  "You are K2SObot with access to tools. You MUST use tools when appropriate.\n\n" ++
  tools_description ++
  "\n\nCRITICAL RULES - FOLLOW EXACTLY:\n" ++
  "1. If user asks \"what time is it\" or \"current time\" → YOU MUST USE the time server get_current_time tool\n" ++
  "2. If user asks for a \"joke\" or \"make me laugh\" → YOU MUST USE the joke server get_random_joke tool\n" ++
  "3. When you use a tool, respond with ONLY this exact JSON format (no other text):\n" ++
  "\x7b\"use_tool\": true, \"server\": \"time\", \"tool\": \"get_current_time\", \"arguments\": \x7b\x7d\x7d\n" ++
  "\nExample:\n" ++
  "User: \"What time is it?\"\n" ++
  "You: \x7b\"use_tool\": true, \"server\": \"time\", \"tool\": \"get_current_time\", \"arguments\": \x7b\x7d\x7d\n" ++
  "\nUser: \"Tell me a joke\"  \n" ++
  "You: \x7b\"use_tool\": true, \"server\": \"joke\", \"tool\": \"get_random_joke\", \"arguments\": \x7b\x7d\x7d\n" ++
  "\nNOW RESPOND TO THIS USER MESSAGE:\n" ++
  "User: " ++ user_message ++
  "\n\nYour response (JSON if using tool, otherwise natural text):"

/-- Embeds the `format_prompt` f-string of `chat_with_mcp` (lines
165-174). -/
def chat_format_prompt
    (user_message server tool tool_result custom_instruction : String) :
    String :=
  "The user asked: " ++ user_message ++
  "\n\nI called the " ++ tool ++ " tool from the " ++ server ++
  " server and got this result:\n" ++ tool_result ++
  "\n\n" ++ custom_instruction ++
  "\n\nNow provide a friendly, natural response based on this information. Use emojis appropriately.\n" ++
  "\nDO NOT mention the tool name in your response - I will add it at the end."

/-- Embeds the markdown-fence stripping of `chat_with_mcp` (lines
127-132): the segment after a first ```json fence (or a first plain
fence) up to the next fence, stripped. -/
def cleanResponse (response_text : String) : String :=
  if strContains response_text "```json" then
    pyStrip ((pySplit ((pySplit response_text "```json").getD 1 "") "```").headD "")
  else if strContains response_text "```" then
    pyStrip ((pySplit ((pySplit response_text "```").getD 1 "") "```").headD "")
  else response_text

/-- Outcome of the structured-tool-request extraction of `chat_with_mcp`
(lines 126-196): `noRequest` falls through to the keyword heuristic (also
reached when `json.loads` raises, which the
`except (JSONDecodeError, KeyError, ValueError)` clause turns into
`pass`); `request` carries a parsed dict whose `use_tool` is `True`;
`raisedErr` is an exception the `except` clause does not catch (such as
the `AttributeError` from `.get` on a non-dict), which escapes to the
top-level handler. -/
inductive ParseOutcome where
  | noRequest
  | request (tool_request : Json)
  | raisedErr (e : String)
  deriving Repr

/-- Embeds the extraction itself (lines 128-144): strip fences, require a
`{` and the substring `use_tool`, slice from the first `{` to one past the
last `}` (slice end 0 when no `}`, as `rfind` returns -1), `json.loads`
the slice, and test `use_tool is True`. -/
def parse_tool_request (loads : String → Except String Json)
    (response_text : String) : ParseOutcome :=
  let cleaned_response := cleanResponse response_text
  if strContains cleaned_response "\x7b" && strContains cleaned_response "use_tool" then
    let json_start := (strFindSub cleaned_response "\x7b").getD 0
    let json_end := match strRFindSub cleaned_response "\x7d" with
      | some i => i + 1
      | none => 0
    let json_str := pySlice cleaned_response json_start json_end
    match loads json_str with
    | .error _ => .noRequest
    | .ok tool_request =>
        match pyGet tool_request "use_tool" with
        | .error e => .raisedErr e
        | .ok (.bool true) => .request tool_request
        | .ok _ => .noRequest
  else .noRequest

/-- Embeds the innermost `try` of the tool-request path (lines 156-189):
call the tool, fetch the per-tool instruction, build the format prompt,
make the second model call, append the tool footer. -/
def inner_tool_call (env : ChatEnv) (user_message server tool : String)
    (arguments : Json) : Except String String := do
  let tool_result ← env.mcp.callTool server tool arguments
  let custom_instruction := get_tool_instruction server tool
  let format_prompt :=
    chat_format_prompt user_message server tool tool_result custom_instruction
  let final_text ← env.gemini.generate format_prompt
  pure (pyStrip final_text ++ "\n\n_🔧 Tool used: `" ++ server ++ "." ++ tool ++ "`_")

/-- Embeds the `use_tool is True` branch (lines 144-192): read and strip
`server` and `tool` (stripping a non-string raises `AttributeError`,
which the parse `except` clause does not catch), default `arguments` to
an empty dict, reject unregistered servers with the fixed apology, and
replace any exception of the inner call with the generic retry apology. -/
def dispatch_tool_request (env : ChatEnv) (user_message : String)
    (tool_request : Json) : Except String String := do
  let serverJ ← pyGetD tool_request "server" (.str "")
  let server ← pyStrStrip serverJ
  let toolJ ← pyGetD tool_request "tool" (.str "")
  let tool ← pyStrStrip toolJ
  let arguments ← pyGetD tool_request "arguments" (.obj [])
  if !(env.mcp.servers.contains server) then
    pure "Sorry, I tried to check the time but the service isn\x27t available right now."
  else
    match inner_tool_call env user_message server tool arguments with
    | .ok r => pure r
    | .error _ =>
        pure "Sorry, I tried to get that information but encountered an issue. Please try again!"

/-- Embeds the forced time-tool call of the fallback heuristic (lines
203-210): call the time tool, parse its payload, format
`human_readable` (falling back to `time_only`, then "unavailable"); any
exception is caught and replaced by the fixed apology. -/
def forced_time_reply (env : ChatEnv) : String :=
  match (do
      let tool_result ← env.mcp.callTool "time" "get_current_time" (.obj [])
      let result_json ← env.loads tool_result
      let dflt ← pyGetD result_json "time_only" (.str "unavailable")
      let v ← pyGetD result_json "human_readable" dflt
      pure ("The current time is: " ++ pyFStr v ++
        " 🕐\n\n_🔧 Tool used: `time.get_current_time` (auto-detected)_")
    : Except String String) with
  | .ok r => r
  | .error _ => "Sorry, I\x27m having trouble accessing the time right now."

/-- Embeds the forced joke-tool call of the fallback heuristic (lines
215-221): call the joke tool, parse its payload, format the `setup` and
`punchline` fields; any exception is caught and replaced by the fixed
apology. -/
def forced_joke_reply (env : ChatEnv) : String :=
  match (do
      let tool_result ← env.mcp.callTool "joke" "get_random_joke" (.obj [])
      let result_json ← env.loads tool_result
      let setup ← pyGetD result_json "setup" (.str "")
      let punchline ← pyGetD result_json "punchline" (.str "")
      pure (pyFStr setup ++ "\n\n" ++ pyFStr punchline ++
        " 😄\n\n_🔧 Tool used: `joke.get_random_joke` (auto-detected)_")
    : Except String String) with
  | .ok r => r
  | .error _ => "Sorry, I can\x27t think of a joke right now!"

/-- Embeds the keyword fallback of `chat_with_mcp` (lines 198-224): a
time keyword in the lowercased user message forces the time tool;
otherwise (`elif`) a humor keyword forces the joke tool; otherwise the
model text is returned as is. -/
def fallback_heuristic (env : ChatEnv) (user_message response_text : String) :
    String :=
  let user_lower := pyLower user_message
  if ["time", "what time", "current time", "clock"].any
      (fun w => strContains user_lower w) then
    forced_time_reply env
  else if ["joke", "funny", "laugh", "humor"].any
      (fun w => strContains user_lower w) then
    forced_joke_reply env
  else response_text

/-- Embeds the body of `gemini_integration.chat_with_mcp` (lines 59-224),
everything inside the top-level `try`: gate on availability, servers and
discovered tools (each miss falls back to `chat_with_gemini`), build the
tool prompt, call the model, extract a structured tool request, and
either dispatch it or run the keyword heuristic. -/
def chat_with_mcp_body (env : ChatEnv) (user_message : String) :
    Except String String :=
  if !env.gemini.available then
    .ok "Gemini API key is not configured."
  else if env.mcp.servers.isEmpty then
    .ok (chat_with_gemini env.gemini user_message)
  else
    match env.mcp.listAllTools with
    | .error _ => .ok (chat_with_gemini env.gemini user_message)
    | .ok all_tools =>
        if !(all_tools.any fun p => !p.2.isEmpty) then
          .ok (chat_with_gemini env.gemini user_message)
        else
          let tools_description := buildToolsDescription all_tools
          let system_prompt := chat_system_prompt tools_description user_message
          match env.gemini.generate system_prompt with
          | .error e => .error e
          | .ok raw =>
              let response_text := pyStrip raw
              match parse_tool_request env.loads response_text with
              | .raisedErr e => .error e
              | .request tool_request =>
                  dispatch_tool_request env user_message tool_request
              | .noRequest =>
                  .ok (fallback_heuristic env user_message response_text)

/-- Embeds `gemini_integration.chat_with_mcp` (lines 55-228): the
top-level catch-all turns a raised exception `e` into
`f"Sorry, I encountered an error: {str(e)}"`. -/
def chat_with_mcp (env : ChatEnv) (user_message : String) : String :=
  match chat_with_mcp_body env user_message with
  | .ok r => r
  | .error e => "Sorry, I encountered an error: " ++ e

/-- The tool catalog used by the concrete heuristic environment. -/
def heuristicTools : List (String × List ToolInfo) :=
  [("time", [{ name := "get_current_time",
               description := "Get the current date and time" }]),
   ("joke", [{ name := "get_random_joke",
               description := "Get a random programming joke" }])]

/-- A concrete environment for exercising the fallback heuristic: both
servers registered with one tool each, a model reply that requests no
tool, canned textual tool results, and a `loads` oracle that parses
exactly those results. -/
def heuristicEnv : ChatEnv :=
  { gemini := { available := true,
                generate := fun _ => .ok "I cannot tell you that." },
    mcp := { servers := ["time", "joke"],
             listAllTools := .ok heuristicTools,
             callTool := fun server _ _ =>
               if server = "time" then .ok "TIMEPAYLOAD"
               else .ok "JOKEPAYLOAD" },
    loads := fun s =>
      if s = "TIMEPAYLOAD" then
        .ok (.obj [("human_readable",
                    .str "10:00 AM on Monday, January 05, 2026"),
                   ("time_only", .str "10:00 AM")])
      else if s = "JOKEPAYLOAD" then
        .ok (.obj [("setup", .str "S"), ("punchline", .str "P")])
      else .error "Expecting value" }

/-- A concrete environment whose model call raises an exception carrying
the given message. -/
def boomEnv (msg : String) : ChatEnv :=
  { gemini := { available := true, generate := fun _ => .error msg },
    mcp := { servers := ["time"],
             listAllTools := .ok [("time",
               [{ name := "get_current_time", description := "d" }])],
             callTool := fun _ _ _ => .error "unused" },
    loads := fun _ => .error "unused" }

/-! ## Theorems -/

/-- Writing a key and reading it back yields the written value. -/
theorem storeGet_storeSet (st : Store) (ch : String) (sel : Selection) :
    storeGet (storeSet st ch sel) ch = some sel := by
  induction st with
  | nil => simp [storeSet, storeGet]
  | cons hd tl ih =>
      obtain ⟨k, v⟩ := hd
      by_cases h : k = ch
      · simp [storeSet, storeGet, h]
      · simp [storeSet, storeGet, h, ih]

/-- C1: handling a namespace selection for a conversation whose stored
selection has command describe/logs with sub-command pods emits the pod
list menu; command rollout restart with sub-command deployments emits the
deployment list menu; in every other case the kubectl command is built and
executed immediately.  No command is executed in the two menu cases (the
effect is `postBlocks`, not `runKubectl`). -/
theorem C1_namespace_select_branches (st : Store) (ch v : String) :
    ((((storeGet st ch).bind Selection.command = some "describe" ∨
        (storeGet st ch).bind Selection.command = some "logs") ∧
        (storeGet st ch).bind Selection.sub_command = some "pods") →
      (handle_kubectl_namespace_select st ch v).2 = .postBlocks (.podMenu v)) ∧
    (((storeGet st ch).bind Selection.command = some "rollout restart" ∧
        (storeGet st ch).bind Selection.sub_command = some "deployments") →
      (handle_kubectl_namespace_select st ch v).2 =
        .postBlocks (.deploymentMenu v)) ∧
    ((¬ (((storeGet st ch).bind Selection.command = some "describe" ∨
        (storeGet st ch).bind Selection.command = some "logs") ∧
        (storeGet st ch).bind Selection.sub_command = some "pods")) →
      (¬ ((storeGet st ch).bind Selection.command = some "rollout restart" ∧
        (storeGet st ch).bind Selection.sub_command = some "deployments")) →
      (handle_kubectl_namespace_select st ch v).2 =
        .runKubectl ch
          ("kubectl " ++ pyStr ((storeGet st ch).bind Selection.command) ++ " " ++
            pyStr ((storeGet st ch).bind Selection.sub_command) ++ " -n " ++ v)) := by
  cases hst : storeGet st ch with
  | none =>
      refine ⟨?_, ?_, ?_⟩
      · rintro ⟨hc, -⟩
        simp [hst] at hc
      · rintro ⟨hc, -⟩
        simp [hst] at hc
      · intro h1 h2
        have h1' : ¬ (((none : Option Selection).bind Selection.command = some "describe" ∨
            (none : Option Selection).bind Selection.command = some "logs") ∧
            (none : Option Selection).bind Selection.sub_command = some "pods") := by
          simp
        have h2' : ¬ ((none : Option Selection).bind Selection.command = some "rollout restart" ∧
            (none : Option Selection).bind Selection.sub_command = some "deployments") := by
          simp
        simp [handle_kubectl_namespace_select, hst, h1', h2']
  | some sel =>
      have hget : storeGet (storeSet st ch { sel with nspace := some v }) ch =
          some { sel with nspace := some v } := storeGet_storeSet st ch _
      refine ⟨?_, ?_, ?_⟩
      · intro h
        have h' : (sel.command = some "describe" ∨ sel.command = some "logs") ∧
            sel.sub_command = some "pods" := by simpa [hst] using h
        simp only [handle_kubectl_namespace_select, hst, hget]
        rw [if_pos (by simpa using h')]
      · intro h
        have h' : sel.command = some "rollout restart" ∧
            sel.sub_command = some "deployments" := by simpa [hst] using h
        have hno : ¬ ((sel.command = some "describe" ∨ sel.command = some "logs") ∧
            sel.sub_command = some "pods") := by
          rintro ⟨-, hp⟩
          rw [h'.2] at hp
          simp at hp
        simp only [handle_kubectl_namespace_select, hst, hget]
        rw [if_neg (by simpa using hno), if_pos (by simpa using h')]
      · intro h1 h2
        have h1' : ¬ ((sel.command = some "describe" ∨ sel.command = some "logs") ∧
            sel.sub_command = some "pods") := by simpa [hst] using h1
        have h2' : ¬ (sel.command = some "rollout restart" ∧
            sel.sub_command = some "deployments") := by simpa [hst] using h2
        simp only [handle_kubectl_namespace_select, hst, hget]
        rw [if_neg (by simpa using h1'), if_neg (by simpa using h2')]
        simp [hst]

/-- C1 witness: a conversation that chose describe + pods receives the pod
list menu on namespace selection. -/
theorem C1_witness :
    (handle_kubectl_namespace_select
      [("C", { command := some "describe", sub_command := some "pods" })]
      "C" "prod").2 = .postBlocks (.podMenu "prod") :=
  (C1_namespace_select_branches
      [("C", { command := some "describe", sub_command := some "pods" })]
      "C" "prod").1 ⟨Or.inl rfl, rfl⟩

/-- C2: with a stored non-empty namespace and a stored command, selecting a
pod builds `kubectl logs <pod> -n <ns>` when the command is logs (the pod
name replaces the sub-command token, no literal pod/pods token), and
`kubectl <cmd> pod <pod> -n <ns>` for every other command. -/
theorem C2_pod_select_command_shape (st : Store) (ch pod ns c : String)
    (hns : (storeGet st ch).bind Selection.nspace = some ns)
    (hne : ns ≠ "")
    (hc : (storeGet st ch).bind Selection.command = some c) :
    (c = "logs" →
      (handle_kubectl_pod_select st ch pod).2 =
        .runKubectl ch ("kubectl logs " ++ pod ++ " -n " ++ ns)) ∧
    (c ≠ "logs" →
      (handle_kubectl_pod_select st ch pod).2 =
        .runKubectl ch ("kubectl " ++ c ++ " pod " ++ pod ++ " -n " ++ ns)) := by
  cases hst : storeGet st ch with
  | none => simp [hst] at hc
  | some sel =>
      rw [hst] at hns hc
      simp only [Option.some_bind] at hns hc
      constructor
      · intro hlogs
        subst hlogs
        simp [handle_kubectl_pod_select, hst, hns, hc, hne, pyStr]
      · intro hnot
        simp [handle_kubectl_pod_select, hst, hns, hc, hne, pyStr, hnot]

/-- C2 witness: logs gives `kubectl logs p1 -n prod`, describe gives
`kubectl describe pod p1 -n prod`. -/
theorem C2_witness :
    (handle_kubectl_pod_select
      [("C", { command := some "logs", sub_command := some "pods",
               nspace := some "prod" })] "C" "p1").2 =
      .runKubectl "C" "kubectl logs p1 -n prod" ∧
    (handle_kubectl_pod_select
      [("D", { command := some "describe", sub_command := some "pods",
               nspace := some "prod" })] "D" "p1").2 =
      .runKubectl "D" "kubectl describe pod p1 -n prod" := by
  constructor
  · exact (C2_pod_select_command_shape
      [("C", { command := some "logs", sub_command := some "pods",
               nspace := some "prod" })] "C" "p1" "prod" "logs"
      rfl (by decide) rfl).1 rfl
  · exact (C2_pod_select_command_shape
      [("D", { command := some "describe", sub_command := some "pods",
               nspace := some "prod" })] "D" "p1" "prod" "describe"
      rfl (by decide) rfl).2 (by decide)

/-- C3: when the stored namespace read with default `""` is empty (entry
absent, or namespace key absent), both the pod-selection and the
deployment-selection handler leave the store unchanged and post
"Namespace not selected. Please start over." instead of building or
executing any command. -/
theorem C3_missing_namespace_refuses (st : Store) (ch v : String)
    (h : ((storeGet st ch).bind Selection.nspace).getD "" = "") :
    handle_kubectl_pod_select st ch v =
      (st, .postText ch "Namespace not selected. Please start over.") ∧
    handle_kubectl_deployment_select st ch v =
      (st, .postText ch "Namespace not selected. Please start over.") := by
  constructor
  · simp [handle_kubectl_pod_select, h]
  · simp [handle_kubectl_deployment_select, h]

/-- C3 witness: a pod selection with no stored entry posts the start-over
message. -/
theorem C3_witness :
    handle_kubectl_pod_select [] "C" "p1" =
      ([], .postText "C" "Namespace not selected. Please start over.") ∧
    handle_kubectl_deployment_select [] "C" "d1" =
      ([], .postText "C" "Namespace not selected. Please start over.") :=
  C3_missing_namespace_refuses [] "C" "p1" rfl |>.imp id
    (fun _ => (C3_missing_namespace_refuses [] "C" "d1" rfl).2)

/-- C4: a top-level command selection stores a fresh selection containing
only the new command: whatever sub-command or namespace was stored before
is discarded by the full dict replacement. -/
theorem C4_command_select_overwrites (st : Store) (ch v : String) :
    storeGet (handle_kubectl_command_select st ch v).1 ch =
      some { command := some v, sub_command := none, nspace := none } :=
  storeGet_storeSet st ch _

/-- C5 counterexample: a sub-command (or namespace) selection for a
conversation with no stored entry does NOT create one — the guarded write
`if channel_id in selected_actions` drops the value and the store stays
empty, refuting the claim that the set-field operation creates the entry
when absent. -/
theorem C5_counterexample :
    storeGet (handle_kubectl_sub_command_select [] "C" "pods").1 "C" = none ∧
    (handle_kubectl_sub_command_select [] "C" "pods").1 = [] ∧
    storeGet (handle_kubectl_namespace_select [] "C" "default").1 "C" = none ∧
    (handle_kubectl_namespace_select [] "C" "default").1 = [] := by
  refine ⟨rfl, rfl, ?_, ?_⟩ <;> rfl

/-- C5 amended: the handlers' field writes only mutate an existing entry
in place; when the conversation has no stored entry the sub-command or
namespace selection leaves the store unchanged (the value is dropped), and
when an entry exists the corresponding field is updated in place. -/
theorem C5_amended_guarded_set_field (st : Store) (ch v : String) :
    (storeGet st ch = none →
      (handle_kubectl_sub_command_select st ch v).1 = st ∧
      (handle_kubectl_namespace_select st ch v).1 = st) ∧
    (∀ sel, storeGet st ch = some sel →
      storeGet (handle_kubectl_sub_command_select st ch v).1 ch =
        some { sel with sub_command := some v } ∧
      storeGet (handle_kubectl_namespace_select st ch v).1 ch =
        some { sel with nspace := some v }) := by
  constructor
  · intro h
    constructor
    · simp [handle_kubectl_sub_command_select, h]
    · simp only [handle_kubectl_namespace_select, h]
      split <;> rfl
  · intro sel h
    constructor
    · simp [handle_kubectl_sub_command_select, h, storeGet_storeSet]
    · simp only [handle_kubectl_namespace_select, h]
      split
      · simp [storeGet_storeSet]
      · split <;> simp [storeGet_storeSet]

/-- C5 amended witness: with no entry the store is unchanged; with an
entry the sub-command is written in place. -/
theorem C5_witness :
    (handle_kubectl_sub_command_select [] "C" "pods").1 = [] ∧
    storeGet (handle_kubectl_sub_command_select
        [("C", { command := some "get" })] "C" "pods").1 "C" =
      some { command := some "get", sub_command := some "pods" } := by
  constructor
  · exact ((C5_amended_guarded_set_field [] "C" "pods").1 rfl).1
  · exact ((C5_amended_guarded_set_field
      [("C", { command := some "get" })] "C" "pods").2
      { command := some "get" } rfl).1

/-- C6: each tool server's main loop turns every input line into exactly
one output line; a line whose parse failed yields the id-0 code -32603
error response; every line is processed independently of the others, so a
malformed line never stops the loop. -/
theorem C6_server_loop_line_discipline
    (jokeInputs : List (Nat × Except String Json))
    (now : TimeNow) (timeInputs : List (Except String Json)) :
    (joke_server_main jokeInputs).length = jokeInputs.length ∧
    (time_server_main now timeInputs).length = timeInputs.length ∧
    (∀ (i : Nat) (p : Nat × Except String Json), jokeInputs[i]? = some p →
      (joke_server_main jokeInputs)[i]? =
        some (processLine (joke_handle_request p.1) p.2)) ∧
    (∀ (i : Nat) (l : Except String Json), timeInputs[i]? = some l →
      (time_server_main now timeInputs)[i]? =
        some (processLine (time_handle_request now) l)) ∧
    (∀ (i r : Nat) (e : String), jokeInputs[i]? = some (r, .error e) →
      (joke_server_main jokeInputs)[i]? = some (malformedLineResponse e)) ∧
    (∀ (i : Nat) (e : String), timeInputs[i]? = some (.error e) →
      (time_server_main now timeInputs)[i]? =
        some (malformedLineResponse e)) := by
  refine ⟨?_, ?_, ?_, ?_, ?_, ?_⟩
  · simp [joke_server_main]
  · simp [time_server_main]
  · intro i p h
    simp [joke_server_main, List.getElem?_map, h]
  · intro i l h
    simp [time_server_main, List.getElem?_map, h]
  · intro i r e h
    simp [joke_server_main, List.getElem?_map, h]
    rfl
  · intro i e h
    simp [time_server_main, List.getElem?_map, h]
    rfl

/-- C6 witness: a malformed first line yields the -32603 error line and
the valid second line is still answered. -/
theorem C6_witness :
    (joke_server_main [(0, .error "Expecting value"),
        (0, .ok (.obj [("method", .str "tools/list"), ("id", .num 7)]))])[0]? =
      some (malformedLineResponse "Expecting value") ∧
    (joke_server_main [(0, .error "Expecting value"),
        (0, .ok (.obj [("method", .str "tools/list"), ("id", .num 7)]))]).length = 2 := by
  constructor
  · exact (C6_server_loop_line_discipline
      [(0, .error "Expecting value"),
       (0, .ok (.obj [("method", .str "tools/list"), ("id", .num 7)]))]
      ⟨"", "", "", "", "", 0⟩ []).2.2.2.2.1 0 0 "Expecting value" rfl
  · exact (C6_server_loop_line_discipline
      [(0, .error "Expecting value"),
       (0, .ok (.obj [("method", .str "tools/list"), ("id", .num 7)]))]
      ⟨"", "", "", "", "", 0⟩ []).1

/-- C7: a `tools/call` of `get_joke_by_index` with an integer index
outside 0-7 returns (never raises) a response whose error object has code
-32602, and with an index inside 0-7 returns a result carrying the joke at
that index. -/
theorem C7_joke_index_bounds (randPick : Nat) (request_id : Json) (n : Int) :
    (¬ (0 ≤ n ∧ n < 8) →
      joke_handle_request randPick (.obj [("method", .str "tools/call"),
        ("params", .obj [("name", .str "get_joke_by_index"),
          ("arguments", .obj [("index", .num n)])]),
        ("id", request_id)]) =
        .ok (rpcError request_id (-32602) "Index must be 0-7")) ∧
    ((0 ≤ n ∧ n < 8) →
      joke_handle_request randPick (.obj [("method", .str "tools/call"),
        ("params", .obj [("name", .str "get_joke_by_index"),
          ("arguments", .obj [("index", .num n)])]),
        ("id", request_id)]) =
        .ok (rpcResultText request_id (dumps (.obj [
          ("setup", .str (JOKES.getD n.toNat ("", "")).1),
          ("punchline", .str (JOKES.getD n.toNat ("", "")).2),
          ("index", .num n)])))) := by
  have hred : joke_handle_request randPick (.obj [("method", .str "tools/call"),
      ("params", .obj [("name", .str "get_joke_by_index"),
        ("arguments", .obj [("index", .num n)])]),
      ("id", request_id)]) =
      .ok (get_joke_by_index_response request_id n) := rfl
  have hlen : (JOKES.length : Int) = 8 := rfl
  constructor
  · intro h
    rw [hred]
    simp only [get_joke_by_index_response, hlen]
    rw [if_neg h]
    rfl
  · intro h
    rw [hred]
    simp only [get_joke_by_index_response, hlen]
    rw [if_pos h]

/-- C7 witness: index 8 produces the -32602 error, index 3 produces the
joke at index 3. -/
theorem C7_witness :
    joke_handle_request 0 (.obj [("method", .str "tools/call"),
      ("params", .obj [("name", .str "get_joke_by_index"),
        ("arguments", .obj [("index", .num 8)])]),
      ("id", .num 7)]) =
      .ok (rpcError (.num 7) (-32602) "Index must be 0-7") ∧
    joke_handle_request 0 (.obj [("method", .str "tools/call"),
      ("params", .obj [("name", .str "get_joke_by_index"),
        ("arguments", .obj [("index", .num 3)])]),
      ("id", .num 7)]) =
      .ok (rpcResultText (.num 7) (dumps (.obj [
        ("setup", .str "Why do Java developers wear glasses?"),
        ("punchline", .str "Because they don\x27t C#!"),
        ("index", .num 3)]))) := by
  constructor
  · exact (C7_joke_index_bounds 0 (.num 7) 8).1 (by decide)
  · exact (C7_joke_index_bounds 0 (.num 7) 3).2 (by decide)

/-- C10: a `tools/call` of `get_joke_by_index` whose arguments dict omits
the `index` key succeeds with the joke at index 0 (the `.get("index", 0)`
default), even though the `tools/list` response advertises `index` as a
required parameter of this tool. -/
theorem C10_missing_index_defaults_to_zero (randPick : Nat)
    (request_id : Json) :
    joke_handle_request randPick (.obj [("method", .str "tools/call"),
      ("params", .obj [("name", .str "get_joke_by_index"),
        ("arguments", .obj [])]), ("id", request_id)]) =
      .ok (rpcResultText request_id (dumps (.obj [
        ("setup", .str "Why do programmers prefer dark mode?"),
        ("punchline", .str "Because light attracts bugs!"),
        ("index", .num 0)]))) ∧
    joke_handle_request randPick (.obj [("method", .str "tools/list"),
      ("id", request_id)]) =
      .ok (.obj [("jsonrpc", .str "2.0"), ("id", request_id),
        ("result", joke_tools_list_result)]) ∧
    advertisedRequired joke_tools_list_result "get_joke_by_index" =
      some (.arr [.str "index"]) :=
  ⟨rfl, rfl, rfl⟩

/-- C8 counterexample: the message "what time is it? also tell me a joke"
contains a humor keyword, yet the negotiator answers with the forced
time-tool reply, not the joke-derived reply the claim requires for
humor-keyword messages — the joke branch is an `elif` behind the time
branch. -/
theorem C8_counterexample :
    strContains (pyLower "what time is it? also tell me a joke") "joke" = true ∧
    chat_with_mcp heuristicEnv "what time is it? also tell me a joke" =
      "The current time is: 10:00 AM on Monday, January 05, 2026 🕐\n\n_🔧 Tool used: `time.get_current_time` (auto-detected)_" ∧
    forced_joke_reply heuristicEnv =
      "S\n\nP 😄\n\n_🔧 Tool used: `joke.get_random_joke` (auto-detected)_" ∧
    chat_with_mcp heuristicEnv "what time is it? also tell me a joke" ≠
      forced_joke_reply heuristicEnv := by
  refine ⟨by decide, by decide, by decide, by decide⟩

/-- C8 amended: when Gemini is available, servers are registered, tool
discovery succeeds with at least one tool, the model call on the tool
prompt returns text from which no structured tool request is parsed, and
nothing is raised, then a user message containing a time keyword is
answered with the forced time-tool reply (built from the time tool's
fields), and a message with no time keyword but with a humor keyword is
answered with the forced joke-tool reply (built from setup/punchline) —
the time branch takes priority because the joke branch is an `elif`. -/
theorem C8_amended_fallback_heuristic (env : ChatEnv)
    (user_message raw : String) (ts : List (String × List ToolInfo))
    (hAvail : env.gemini.available = true)
    (hServers : env.mcp.servers.isEmpty = false)
    (hTools : env.mcp.listAllTools = .ok ts)
    (hSome : (ts.any fun p => !p.2.isEmpty) = true)
    (hGen : env.gemini.generate
      (chat_system_prompt (buildToolsDescription ts) user_message) = .ok raw)
    (hNoReq : parse_tool_request env.loads (pyStrip raw) = .noRequest) :
    ((["time", "what time", "current time", "clock"].any
        (fun w => strContains (pyLower user_message) w)) = true →
      chat_with_mcp env user_message = forced_time_reply env) ∧
    ((["time", "what time", "current time", "clock"].any
        (fun w => strContains (pyLower user_message) w)) = false →
      (["joke", "funny", "laugh", "humor"].any
        (fun w => strContains (pyLower user_message) w)) = true →
      chat_with_mcp env user_message = forced_joke_reply env) := by
  have hbody : chat_with_mcp_body env user_message =
      .ok (fallback_heuristic env user_message (pyStrip raw)) := by
    simp [chat_with_mcp_body, hAvail, hServers, hTools, hSome, hGen, hNoReq]
  constructor
  · intro hkw
    simp [chat_with_mcp, hbody, fallback_heuristic, hkw]
  · intro hno hkw
    simp [chat_with_mcp, hbody, fallback_heuristic, hno, hkw]

/-- C8 witness: "what time is it" triggers the forced time reply, and
"tell me a joke" (no time keyword) triggers the forced joke reply. -/
theorem C8_witness :
    chat_with_mcp heuristicEnv "what time is it" =
      forced_time_reply heuristicEnv ∧
    chat_with_mcp heuristicEnv "tell me a joke" =
      forced_joke_reply heuristicEnv := by
  constructor
  · exact (C8_amended_fallback_heuristic heuristicEnv "what time is it"
      "I cannot tell you that." heuristicTools
      rfl rfl rfl rfl rfl rfl).1 rfl
  · exact (C8_amended_fallback_heuristic heuristicEnv "tell me a joke"
      "I cannot tell you that." heuristicTools
      rfl rfl rfl rfl rfl rfl).2 rfl rfl

/-- C9 counterexample: when the model call raises "boom", the top-level
catch returns "Sorry, I encountered an error: boom" — the reply embeds
the internal exception message (and changes when only that message
changes), so it is not the detail-free generic apology the claim
describes, although the exception indeed does not propagate. -/
theorem C9_counterexample :
    chat_with_mcp (boomEnv "boom") "hello" =
      "Sorry, I encountered an error: boom" ∧
    strContains (chat_with_mcp (boomEnv "boom") "hello") "boom" = true ∧
    chat_with_mcp (boomEnv "boom") "hello" ≠
      chat_with_mcp (boomEnv "kaboom") "hello" := by
  refine ⟨by decide, by decide, by decide⟩

/-- C9 amended: every exception raised inside the negotiation body is
caught at the top level and converted into an apologetic reply that
appends the exception's own message
(`f"Sorry, I encountered an error: {str(e)}"`), and the exception never
propagates to the caller; the same catch-all protects the plain
`chat_with_gemini` entry point. -/
theorem C9_amended_top_level_catch (env : ChatEnv) (genv : GeminiEnv)
    (user_message : String) :
    (∀ e, chat_with_mcp_body env user_message = .error e →
      chat_with_mcp env user_message =
        "Sorry, I encountered an error: " ++ e) ∧
    (∀ r, chat_with_mcp_body env user_message = .ok r →
      chat_with_mcp env user_message = r) ∧
    (∀ e, chat_with_gemini_body genv user_message = .error e →
      chat_with_gemini genv user_message =
        "Sorry, I encountered an error: " ++ e) ∧
    (∀ r, chat_with_gemini_body genv user_message = .ok r →
      chat_with_gemini genv user_message = r) := by
  refine ⟨?_, ?_, ?_, ?_⟩ <;> intro x h <;>
    simp [chat_with_mcp, chat_with_gemini, h]

/-- C9 witness: the "boom" exception is converted, not propagated. -/
theorem C9_witness :
    chat_with_mcp (boomEnv "boom") "hi" =
      "Sorry, I encountered an error: boom" :=
  (C9_amended_top_level_catch (boomEnv "boom") (boomEnv "boom").gemini
    "hi").1 "boom" rfl
